import Mathlib

/-!
# Verification of the phylogeny-estimation-comparison scripts

A shallow embedding of `src/scripts/compare_trees.py` (the tree Comparator)
and `src/scripts/summarize_results.py` (the results Summarizer), with
theorems settling the specification's claims about them.

Numeric values that the Python scripts hold as IEEE floats are modelled as
exact rationals (`ℚ`); none of the claims concerns rounding behaviour.
-/

namespace PhyloComp

/-- A phylogenetic tree as the Comparator sees it after dendropy parsing:
its set of leaf labels and its encoded bipartition set.  Bipartitions are
represented canonically as sets of leaf labels (one side of the split), so
that two bipartitions from different trees are equal iff they induce the
same leaf-set partition; dendropy's `split_bitmask` over the shared taxon
namespace is an equivalent canonical code. -/
structure PTree where
  leaves : Finset String
  splits : Finset (Finset String)
deriving DecidableEq

/-- The single shared `dendropy.TaxonNamespace` (`taxa`, compare_trees.py
line 23) once both trees have been read into it: parsing a tree with
`taxon_namespace=taxa` attaches the tree to `taxa` and adds the tree's
labels to it, so after both `Tree.get` calls it holds every label of either
tree, and `true_tree.taxon_namespace` and `estimated_tree.taxon_namespace`
are both this set. -/
def sharedTaxa (true_tree estimated_tree : PTree) : Finset String :=
  true_tree.leaves ∪ estimated_tree.leaves

/-- `common_taxa` exactly as compare_trees.py lines 67-68 compute it: the
intersection of the label set of `true_tree.taxon_namespace` with the label
set of `estimated_tree.taxon_namespace`.  Both namespaces are the one shared
`taxa` object, so both label sets are `sharedTaxa`. -/
def common_taxa (true_tree estimated_tree : PTree) : Finset String :=
  sharedTaxa true_tree estimated_tree ∩ sharedTaxa true_tree estimated_tree

/-- `retain_taxa_with_labels` (a dendropy library call, compare_trees.py
lines 96-97).  Modelled from the spec: prune each tree down to exactly the
kept taxa and restrict every bipartition to the kept leaf set, dropping
bipartitions that become empty. -/
def retain_taxa_with_labels (t : PTree) (keep : Finset String) : PTree :=
  { leaves := t.leaves ∩ keep
    splits := (t.splits.image fun s => s ∩ keep).filter fun s => s.Nonempty }

/-- `treecompare.symmetric_difference` (a dendropy library call,
compare_trees.py line 103).  Modelled from the spec: the RF distance is the
count of bipartitions present in exactly one of the two trees, i.e. false
negatives plus false positives. -/
def symmetric_difference (a b : Finset (Finset String)) : ℕ :=
  (a \ b).card + (b \ a).card

/-- `FN = len(missing_splits) / (len(true_splits) if true_splits else 1)`
(compare_trees.py lines 110-111): Python truthiness makes the denominator
`len(true_splits)` when the set is non-empty and `1` when it is empty. -/
def fnRate (true_splits est_splits : Finset (Finset String)) : ℚ :=
  (((true_splits \ est_splits).card : ℚ)) /
    (if true_splits.Nonempty then (true_splits.card : ℚ) else 1)

/-- `FP = len(extra_splits) / (len(est_splits) if est_splits else 1)`
(compare_trees.py lines 114-115). -/
def fpRate (est_splits true_splits : Finset (Finset String)) : ℚ :=
  (((est_splits \ true_splits).card : ℚ)) /
    (if est_splits.Nonempty then (est_splits.card : ℚ) else 1)

/-- The report the Comparator writes to its output file. -/
inductive Report where
  | metrics (rf : ℕ) (fn fp : ℚ)
  | invalid (trueTaxa estTaxa common : ℕ)
  | failure (msg : String)
deriving DecidableEq

/-- The body of `main`'s `try:` block after both trees parsed successfully
(compare_trees.py lines 60-124): compute `common_taxa`; if fewer than 3,
write the invalid report (both taxon-count lines print `len` of the shared
namespace); otherwise prune when `common_taxa` is smaller than a tree's
namespace (the namespace is shared, so the guard compares `common_taxa`
against `sharedTaxa` for each tree), encode bipartitions and report RF, FN
and FP. -/
def comparatorRun (true_tree estimated_tree : PTree) : Report :=
  let ns := sharedTaxa true_tree estimated_tree
  let common := common_taxa true_tree estimated_tree
  if common.card < 3 then
    .invalid ns.card ns.card common.card
  else
    let tT := if common.card < ns.card ∨ common.card < ns.card then
                retain_taxa_with_labels true_tree common else true_tree
    let eT := if common.card < ns.card ∨ common.card < ns.card then
                retain_taxa_with_labels estimated_tree common else estimated_tree
    let true_splits := tT.splits
    let est_splits := eT.splits
    .metrics (symmetric_difference true_splits est_splits)
             (fnRate true_splits est_splits)
             (fpRate est_splits true_splits)

/-- The lines written to the output file for each kind of report
(compare_trees.py lines 73-84, 118-123, 130-131). -/
def reportLines : Report → List String
  | .metrics rf fn fp =>
      ["Tree comparison results:",
       "RF distance: " ++ toString rf,
       "FN rate: " ++ toString fn,
       "FP rate: " ++ toString fp]
  | .invalid trueTaxa estTaxa common =>
      ["Tree comparison results:",
       "WARNING: Less than 3 common taxa found. Comparison not valid.",
       "Trees have different taxon sets.",
       "True tree taxa: " ++ toString trueTaxa,
       "Estimated tree taxa: " ++ toString estTaxa,
       "Common taxa: " ++ toString common,
       "RF distance: N/A",
       "FN rate: N/A",
       "FP rate: N/A"]
  | .failure msg => ["Tree comparison error: " ++ msg]

/-- What one process invocation produces: an exit code and, when a file was
written, the lines of the output file. -/
structure MainResult where
  exitCode : ℕ
  written : Option (List String)
deriving DecidableEq

/-- `main` of compare_trees.py over the full argument vector `argv`
(`sys.argv`, so the script name plus the positional arguments): wrong arity
prints usage and exits 1 without writing anything; otherwise the `try:`
block runs.  `parsed` stands for the tree-reading phase (dendropy parsing of
the two files, lines 26-59): `.error msg` is a raised exception with message
`msg`, which the `except` clause catches, writing the single error line
(lines 127-131); in either case the process then falls off `main` and exits
0. -/
def compareMain (argv : List String)
    (parsed : Except String (PTree × PTree)) : MainResult :=
  if argv.length ≠ 4 then
    { exitCode := 1, written := none }
  else
    match parsed with
    | .error msg =>
        { exitCode := 0, written := some (reportLines (.failure msg)) }
    | .ok (true_tree, estimated_tree) =>
        { exitCode := 0,
          written := some (reportLines (comparatorRun true_tree estimated_tree)) }

/-- The RF-distance value a report carries, when it carries one. -/
def reportedRF : Report → Option ℕ
  | .metrics rf _ _ => some rf
  | _ => none

/-- The FN-rate value a report carries, when it carries one. -/
def reportedFN : Report → Option ℚ
  | .metrics _ fn _ => some fn
  | _ => none

/-- The FP-rate value a report carries, when it carries one. -/
def reportedFP : Report → Option ℚ
  | .metrics _ _ fp => some fp
  | _ => none

/-! ## The Summarizer (summarize_results.py) -/

/-- Does the second list start with the first? -/
def leadsWith : List Char → List Char → Bool
  | [], _ => true
  | _ :: _, [] => false
  | a :: as, b :: bs => a = b && leadsWith as bs

/-- Python's `needle in hay` substring test, over character lists. -/
def containsSub (needle : List Char) : List Char → Bool
  | [] => leadsWith needle []
  | c :: rest => leadsWith needle (c :: rest) || containsSub needle rest

/-- Python substring test on strings. -/
def strContains (hay needle : String) : Bool :=
  containsSub needle.toList hay.toList

/-- Python's `str.split(sep)` for a one-character separator. -/
def splitOnCharAux (sep : Char) : List Char → List Char → List (List Char)
  | [], acc => [acc.reverse]
  | c :: rest, acc =>
    if c = sep then acc.reverse :: splitOnCharAux sep rest []
    else splitOnCharAux sep rest (c :: acc)

/-- `str.split(sep)` proper: every maximal piece between separators. -/
def splitOnChar (sep : Char) (l : List Char) : List (List Char) :=
  splitOnCharAux sep l []

/-- Python's `str.strip()` whitespace. -/
def isSpaceChar (c : Char) : Bool :=
  c = ' ' || c = '\t' || c = '\r' || c = '\n'

/-- Python's `str.strip()`: drop whitespace from both ends. -/
def trimChars (l : List Char) : List Char :=
  ((l.dropWhile isSpaceChar).reverse.dropWhile isSpaceChar).reverse

/-- The value of a decimal digit character. -/
def digitVal (c : Char) : Option ℕ :=
  if '0' ≤ c && c ≤ '9' then some (c.toNat - '0'.toNat) else none

/-- Read a non-empty all-digit list as a natural number. -/
def natOfDigitsAux : List Char → ℕ → Option ℕ
  | [], acc => some acc
  | c :: rest, acc =>
    match digitVal c with
    | some d => natOfDigitsAux rest (10 * acc + d)
    | none => none

/-- Read a non-empty all-digit list as a natural number; `[]` fails. -/
def natOfDigits : List Char → Option ℕ
  | [] => none
  | l => natOfDigitsAux l 0

/-- Python's `float(value)` for the plain decimal numerals the reports carry
(an optional sign, digits, an optional fractional part), as an exact
rational; other strings fail. -/
def parseFloat (s : String) : Option ℚ :=
  let core : List Char → Option ℚ := fun t =>
    match splitOnChar '.' t with
    | [w] => (natOfDigits w).map fun n => (n : ℚ)
    | [w, f] =>
        match natOfDigits w, natOfDigits f with
        | some wn, some fn =>
            some ((wn : ℚ) + (fn : ℚ) / ((10 : ℚ) ^ f.length))
        | _, _ => none
    | _ => none
  let l := s.toList
  if l.head? = some '-' then (core l.tail).map Neg.neg else core l

/-- The `results` dict built by `parse_comparison_file`: each key is absent
(`none`) until its labelled line is seen; a present value is either the
missing-value sentinel `np.nan` (`some none`) or a number (`some (some q)`). -/
structure FileResults where
  rf : Option (Option ℚ) := none
  fn : Option (Option ℚ) := none
  fp : Option (Option ℚ) := none
deriving DecidableEq

/-- `line.split(":")[1].strip()` (summarize_results.py lines 20, 23, 26);
indexing `[1]` raises when the line has no `:`. -/
def lineValue (line : String) : Except Unit (List Char) :=
  match (splitOnChar ':' line.toList).get? 1 with
  | some v => .ok (trimChars v)
  | none => .error ()

/-- `float(value) if value != 'N/A' else np.nan`: `N/A` becomes the
missing-value sentinel, anything `float` cannot read raises. -/
def readCell (v : List Char) : Except Unit (Option ℚ) :=
  if v = "N/A".toList then .ok none
  else
    match parseFloat (String.mk v) with
    | some q => .ok (some q)
    | none => .error ()

/-- The line loop of `parse_comparison_file` (lines 17-27): an `elif` chain
keyed on substring tests, updating the `results` dict; a raised exception
aborts the whole loop. -/
def scanLines : List String → FileResults → Except Unit FileResults
  | [], r => .ok r
  | line :: rest, r => do
    let r' ←
      if strContains line "RF distance:" then do
        let v ← lineValue line
        let c ← readCell v
        pure { r with rf := some c }
      else if strContains line "FN rate:" then do
        let v ← lineValue line
        let c ← readCell v
        pure { r with fn := some c }
      else if strContains line "FP rate:" then do
        let v ← lineValue line
        let c ← readCell v
        pure { r with fp := some c }
      else
        pure r
    scanLines rest r'

/-- `parse_comparison_file` (summarize_results.py lines 13-31): scan the
file's lines; on any exception print a message and return the all-`nan`
dict. -/
def parse_comparison_file (lines : List String) : FileResults :=
  match scanLines lines {} with
  | .ok r => r
  | .error _ => { rf := some none, fn := some none, fp := some none }

/-- One row of the raw results table.  A `none` metric is pandas' `NaN`
missing-value sentinel. -/
structure Row where
  model : String
  method : String
  replicate : String
  rf : Option ℚ
  fn : Option ℚ
  fp : Option ℚ
deriving DecidableEq

/-- The fixed model-condition names (summarize_results.py line 54). -/
def models : List String := ["1000M1", "1000M4"]

/-- The fixed method-key → display-name mapping (lines 45-51). -/
def methods : List (String × String) :=
  [("fasttree_gtr", "FastTree (GTR)"),
   ("fasttree_jc", "FastTree (JC)"),
   ("nj_jc", "NJ (JC)"),
   ("nj_logdet", "NJ (LogDet)"),
   ("nj_pdist", "NJ (p-distance)")]

/-- The results directory as the Summarizer walks it: the model directories
that exist, each holding its replicate directories, each holding the
comparison files that exist as (file name, file lines). -/
abbrev ResultsFS := List (String × List (String × List (String × List String)))

/-- Building one raw-table row from a found comparison file (lines 74-86):
`results.get(key, np.nan)` collapses an absent key and a stored `nan` to the
same missing value. -/
def rowOfFile (model methodName rep : String) (lines : List String) : Row :=
  let r := parse_comparison_file lines
  { model := model, method := methodName, replicate := rep,
    rf := r.rf.join, fn := r.fn.join, fp := r.fp.join }

/-- The directory walk of `main` (summarize_results.py lines 54-86): for
each fixed model name whose directory exists, for each replicate directory,
for each fixed method key whose `<key>_comparison.txt` exists, parse the
file and append a row. -/
def buildRows (fs : ResultsFS) : List Row :=
  models.flatMap fun model =>
    match fs.lookup model with
    | none => []
    | some reps =>
        reps.flatMap fun rep =>
          methods.filterMap fun mk =>
            (rep.2.lookup (mk.1 ++ "_comparison.txt")).map fun lines =>
              rowOfFile model mk.2 rep.1 lines

/-- The raw CSV's header line (line 41). -/
def rawHeader : String := "Model,Method,Replicate,RF,FN,FP"

/-- How a metric cell prints in the CSV: pandas writes `NaN` as an empty
cell. -/
def cellStr : Option ℚ → String
  | none => ""
  | some q => toString q

/-- `raw_results.csv` as a list of lines (lines 88-91): the header followed
by one line per raw-table row. -/
def rawCsv (rows : List Row) : List String :=
  rawHeader ::
    rows.map fun r =>
      String.intercalate ","
        [r.model, r.method, r.replicate, cellStr r.rf, cellStr r.fn, cellStr r.fp]

/-- pandas' `mean`: the mean over the non-missing values, `NaN` when every
value is missing. -/
def meanSkipNA (vals : List (Option ℚ)) : Option ℚ :=
  let vs := vals.filterMap id
  if vs.length = 0 then none else some (vs.sum / (vs.length : ℚ))

/-- pandas' `std` squared: the sample variance with denominator `n - 1`
(`ddof=1`), `NaN` for fewer than two non-missing values.  The reported
standard deviation is its square root, which is irrational in general; the
claims only concern the means, so the variance is what the embedding
carries. -/
def varSkipNA (vals : List (Option ℚ)) : Option ℚ :=
  let vs := vals.filterMap id
  if vs.length < 2 then none
  else
    let m := vs.sum / (vs.length : ℚ)
    some ((vs.map fun v => (v - m) ^ 2).sum / ((vs.length : ℚ) - 1))

/-- One row of `summary_results.csv`: a (model, method) group with its
aggregated FN and FP statistics. -/
structure SummaryRow where
  model : String
  method : String
  fnMean : Option ℚ
  fnVar : Option ℚ
  fpMean : Option ℚ
  fpVar : Option ℚ
deriving DecidableEq

/-- The FN values of one (model, method) group of the raw table. -/
def groupFN (rows : List Row) (k : String × String) : List (Option ℚ) :=
  (rows.filter fun r => (r.model, r.method) = k).map fun r => r.fn

/-- The FP values of one (model, method) group of the raw table. -/
def groupFP (rows : List Row) (k : String × String) : List (Option ℚ) :=
  (rows.filter fun r => (r.model, r.method) = k).map fun r => r.fp

/-- `results_df.groupby(['Model','Method']).agg(...)` (lines 93-97): one
summary row per observed (model, method) pair, aggregating FN and FP while
skipping missing values.  (pandas emits the groups sorted by key; the group
contents are what the claims concern, so the embedding keeps first-occurrence
order.) -/
def summaryRows (rows : List Row) : List SummaryRow :=
  ((rows.map fun r => (r.model, r.method)).dedup).map fun k =>
    { model := k.1, method := k.2,
      fnMean := meanSkipNA (groupFN rows k),
      fnVar := varSkipNA (groupFN rows k),
      fpMean := meanSkipNA (groupFP rows k),
      fpVar := varSkipNA (groupFP rows k) }

/-- Which plot image files a Summarizer run saves. -/
structure Plots where
  fnChart : Bool
  fpChart : Bool
deriving DecidableEq

/-- `create_plots` (summarize_results.py lines 106-149): one early return
guards both charts — if the table is empty, or every FN is missing, or every
FP is missing, neither image is saved; otherwise both are. -/
def create_plots (rows : List Row) : Plots :=
  if rows.isEmpty || (rows.all fun r => r.fn.isNone) ||
      (rows.all fun r => r.fp.isNone) then
    { fnChart := false, fpChart := false }
  else
    { fnChart := true, fpChart := true }

/-- Everything one Summarizer run writes. -/
structure SummarizerOutput where
  rawLines : List String
  summary : List SummaryRow
  plots : Plots
deriving DecidableEq

/-- `main` of summarize_results.py after the arity check: build the raw
table, write both CSVs, then `create_plots`. -/
def summarizerMain (fs : ResultsFS) : SummarizerOutput :=
  let rows := buildRows fs
  { rawLines := rawCsv rows,
    summary := summaryRows rows,
    plots := create_plots rows }

/-! ## Basic facts about the Comparator -/

/-- The `common_taxa` the script computes is the union of both trees' leaf
labels: both operands of the intersection at line 67 are the one shared
taxon namespace. -/
theorem common_taxa_eq_union (t e : PTree) :
    common_taxa t e = t.leaves ∪ e.leaves := by
  simp [common_taxa, sharedTaxa]

/-- When `common_taxa` has at least 3 members the run reports metrics
computed directly from the two trees' split sets: the pruning guard
`len(common_taxa) < len(tree.taxon_namespace)` compares the set against
itself, so pruning never fires. -/
theorem comparatorRun_metrics (t e : PTree)
    (h : 3 ≤ (common_taxa t e).card) :
    comparatorRun t e =
      .metrics (symmetric_difference t.splits e.splits)
               (fnRate t.splits e.splits)
               (fpRate e.splits t.splits) := by
  have hc : common_taxa t e = sharedTaxa t e := by
    simp [common_taxa]
  unfold comparatorRun
  rw [if_neg (by omega)]
  rw [hc]
  simp

/-- When `common_taxa` has fewer than 3 members the run reports the invalid
report with the shared namespace's size in both taxon-count slots. -/
theorem comparatorRun_invalid (t e : PTree)
    (h : (common_taxa t e).card < 3) :
    comparatorRun t e =
      .invalid (sharedTaxa t e).card (sharedTaxa t e).card
               (common_taxa t e).card := by
  unfold comparatorRun
  rw [if_pos h]

/-- Both rates are quotients of a subset's size by its superset's size, with
denominator 1 and numerator 0 in the empty case. -/
theorem fnRate_mem_unit (a b : Finset (Finset String)) :
    0 ≤ fnRate a b ∧ fnRate a b ≤ 1 := by
  unfold fnRate
  by_cases hne : a.Nonempty
  · rw [if_pos hne]
    have hpos : (0:ℚ) < a.card := by exact_mod_cast Finset.card_pos.mpr hne
    refine ⟨by positivity, ?_⟩
    rw [div_le_one hpos]
    exact_mod_cast Finset.card_le_card Finset.sdiff_subset
  · rw [if_neg hne]
    rw [Finset.not_nonempty_iff_eq_empty] at hne
    subst hne
    simp

/-- A successful `List.lookup` finds a pair of the list. -/
theorem lookup_mem {α : Type} (l : List (String × α)) (k : String) (v : α)
    (h : l.lookup k = some v) : (k, v) ∈ l := by
  induction l with
  | nil => simp [List.lookup] at h
  | cons a tl ih =>
    rw [List.lookup] at h
    by_cases hk : (k == a.1) = true
    · have hk2 : k = a.1 := eq_of_beq hk
      simp only [hk] at h
      cases h
      subst hk2
      simp
    · simp only [Bool.not_eq_true] at hk
      rw [hk] at h
      exact List.mem_cons_of_mem _ (ih h)

/-- A results directory whose replicate directories hold no comparison files
yields an empty raw table. -/
theorem buildRows_nil (fs : ResultsFS)
    (h : ∀ m ∈ fs, ∀ rp ∈ m.2, rp.2 = ([] : List (String × List String))) :
    buildRows fs = [] := by
  unfold buildRows
  rw [List.flatMap_eq_nil_iff]
  intro model hm
  cases hl : fs.lookup model with
  | none => simp
  | some reps =>
    simp only
    rw [List.flatMap_eq_nil_iff]
    intro rep hrep
    have h2 : rep.2 = [] := h (model, reps) (lookup_mem fs model reps hl) rep hrep
    rw [h2]
    simp [List.filterMap_eq_nil_iff]

/-! ## Concrete inputs used by the claims -/

/-- A tree on leaves A, B, C with no encoded bipartitions. -/
def noSplitsTree : PTree := ⟨{"A", "B", "C"}, ∅⟩

/-- A tree on leaves A, B, C whose encoding holds the single split AB. -/
def oneSplitTree : PTree := ⟨{"A", "B", "C"}, {{"A", "B"}}⟩

/-- A tree on leaves A, B, C whose encoding holds the single split AC. -/
def otherSplitTree : PTree := ⟨{"A", "B", "C"}, {{"A", "C"}}⟩

/-- A tree on leaves D, E, F: disjoint from `noSplitsTree`. -/
def disjointTree : PTree := ⟨{"D", "E", "F"}, ∅⟩

/-- A raw-table row whose FN is missing while its FP is present. -/
def fpOnlyRow : Row :=
  { model := "1000M1", method := "FastTree (GTR)", replicate := "R1",
    rf := some 0, fn := none, fp := some (1/2) }

/-- Three replicates of one (model, method): FN values 0.1, 0.2 and N/A
(the third file is an invalid-comparison report), FP values 0.3, 0.5, N/A. -/
def c6FS : ResultsFS := [("1000M1",
  [("R1", [("fasttree_gtr_comparison.txt",
      ["Tree comparison results:", "RF distance: 2", "FN rate: 0.1",
       "FP rate: 0.3"])]),
   ("R2", [("fasttree_gtr_comparison.txt",
      ["Tree comparison results:", "RF distance: 4", "FN rate: 0.2",
       "FP rate: 0.5"])]),
   ("R3", [("fasttree_gtr_comparison.txt", reportLines (.invalid 5 5 2))])])]

/-- A results directory holding a single report file that contains only an
error line and none of the three labelled lines. -/
def c10FS : ResultsFS :=
  [("1000M1", [("R1", [("nj_jc_comparison.txt",
    ["Tree comparison error: boom"])])])]

/-! ## The claims -/

/-- C1: the claim says the "common taxa" set is the intersection of the true
tree's and the estimated tree's leaf-label sets.  The code computes the
intersection of two copies of the one shared taxon namespace, i.e. the union
of both leaf sets: on the disjoint pair `noSplitsTree` / `disjointTree` the
leaf-set intersection is empty while the code's `common_taxa` has all 6
labels. -/
theorem C1_common_taxa_is_union_of_leaf_sets :
    common_taxa noSplitsTree disjointTree =
        noSplitsTree.leaves ∪ disjointTree.leaves ∧
    (common_taxa noSplitsTree disjointTree).card = 6 ∧
    (noSplitsTree.leaves ∩ disjointTree.leaves).card = 0 ∧
    common_taxa noSplitsTree disjointTree ≠
        noSplitsTree.leaves ∩ disjointTree.leaves := by
  refine ⟨common_taxa_eq_union _ _, by decide, by decide, by decide⟩

/-- C2 counterexample: with an empty true-tree split set and a non-empty
estimated split set (3 common taxa, so the comparison succeeds), the code
reports FN = 0, not the claimed 1.0. -/
theorem C2_counterexample :
    noSplitsTree.splits = ∅ ∧
    3 ≤ (common_taxa noSplitsTree oneSplitTree).card ∧
    reportedFN (comparatorRun noSplitsTree oneSplitTree) = some 0 ∧
    (0 : ℚ) ≠ 1 := by
  refine ⟨rfl, by decide, ?_, by norm_num⟩
  rw [comparatorRun_metrics _ _ (by decide)]
  simp only [reportedFN, Option.some.injEq]
  rw [fnRate, if_neg (by simp [noSplitsTree])]
  simp [noSplitsTree]

/-- C2 as amended: in a successful comparison FN = |true-only| / |true
splits| when the true split set is non-empty, and FN = 0 (an empty numerator
over the substituted denominator 1) when it is empty; symmetrically for
FP. -/
theorem C2_zero_denominator_rate_is_zero (t e : PTree)
    (h : 3 ≤ (common_taxa t e).card) :
    (t.splits.Nonempty →
        reportedFN (comparatorRun t e) =
          some (((t.splits \ e.splits).card : ℚ) / (t.splits.card : ℚ))) ∧
    (t.splits = ∅ → reportedFN (comparatorRun t e) = some 0) ∧
    (e.splits.Nonempty →
        reportedFP (comparatorRun t e) =
          some (((e.splits \ t.splits).card : ℚ) / (e.splits.card : ℚ))) ∧
    (e.splits = ∅ → reportedFP (comparatorRun t e) = some 0) := by
  rw [comparatorRun_metrics t e h]
  simp only [reportedFN, reportedFP, Option.some.injEq]
  refine ⟨fun hne => ?_, fun hemp => ?_, fun hne => ?_, fun hemp => ?_⟩
  · rw [fnRate, if_pos hne]
  · rw [fnRate, if_neg (by simp [hemp]), hemp]
    simp
  · rw [fpRate, if_pos hne]
  · rw [fpRate, if_neg (by simp [hemp]), hemp]
    simp

/-- C2 witness: the amended theorem applied to two concrete trees with 3
common taxa and one split each. -/
theorem C2_witness :
    reportedFN (comparatorRun oneSplitTree otherSplitTree) =
      some (((oneSplitTree.splits \ otherSplitTree.splits).card : ℚ) /
        (oneSplitTree.splits.card : ℚ)) :=
  (C2_zero_denominator_rate_is_zero oneSplitTree otherSplitTree
    (by decide)).1 (by decide)

/-- C3: with the right arity (4 entries of `sys.argv`) the Comparator exits
0 and always writes the output file — on a raised exception the file holds
the single error line; with the wrong arity it exits 1 and writes
nothing. -/
theorem C3_arity_and_error_handling (argv : List String)
    (parsed : Except String (PTree × PTree)) :
    (argv.length = 4 →
        (compareMain argv parsed).exitCode = 0 ∧
        ∃ ls, (compareMain argv parsed).written = some ls ∧
          ∀ msg, parsed = .error msg →
            ls = ["Tree comparison error: " ++ msg]) ∧
    (argv.length ≠ 4 →
        (compareMain argv parsed).exitCode = 1 ∧
        (compareMain argv parsed).written = none) := by
  unfold compareMain
  by_cases h : argv.length = 4
  · rw [if_neg (by simp [h])]
    refine ⟨fun _ => ?_, fun hc => absurd h hc⟩
    cases parsed with
    | error msg =>
        exact ⟨rfl, ["Tree comparison error: " ++ msg], rfl,
          by simp [reportLines]⟩
    | ok p =>
        refine ⟨rfl, _, rfl, ?_⟩
        intro msg hmsg
        cases hmsg
  · rw [if_pos h]
    exact ⟨fun hc => absurd hc h, fun _ => ⟨rfl, rfl⟩⟩

/-- C4: the claim says fewer than 3 genuinely common taxa yields the invalid
N/A report.  On the disjoint pair the leaf-set intersection is empty, yet
the run takes the metrics branch (its `common_taxa` is the 6-label union)
and never writes the invalid report; the Summarizer side of the claim does
hold: each N/A of an invalid report parses to the missing-value sentinel. -/
theorem C4_fewer_than_three_common_taxa_not_detected :
    (noSplitsTree.leaves ∩ disjointTree.leaves).card < 3 ∧
    comparatorRun noSplitsTree disjointTree =
      .metrics (symmetric_difference noSplitsTree.splits disjointTree.splits)
               (fnRate noSplitsTree.splits disjointTree.splits)
               (fpRate disjointTree.splits noSplitsTree.splits) ∧
    (∀ a b c, comparatorRun noSplitsTree disjointTree ≠ .invalid a b c) ∧
    (parse_comparison_file (reportLines (.invalid 3 3 0))).rf = some none ∧
    (parse_comparison_file (reportLines (.invalid 3 3 0))).fn = some none ∧
    (parse_comparison_file (reportLines (.invalid 3 3 0))).fp = some none := by
  refine ⟨by decide, comparatorRun_metrics _ _ (by decide), ?_,
    by decide, by decide, by decide⟩
  intro a b c hcontra
  rw [comparatorRun_metrics _ _ (by decide)] at hcontra
  cases hcontra

/-- C5 counterexample: a one-row table with FN missing but FP present — the
claim says the FP chart is still produced, but the code's single early
return skips both charts. -/
theorem C5_counterexample :
    ([fpOnlyRow] ≠ ([] : List Row)) ∧ fpOnlyRow.fp ≠ none ∧
    (create_plots [fpOnlyRow]).fpChart = false := by
  refine ⟨by decide, by decide, ?_⟩
  rfl

/-- C5 as amended: the two charts are gated together by one early return —
both are rendered when the table is non-empty and each of FN and FP has at
least one present value, and neither is rendered otherwise. -/
theorem C5_charts_gated_jointly (rows : List Row) :
    (create_plots rows).fnChart = (create_plots rows).fpChart ∧
    ((create_plots rows).fnChart = true ↔
      rows ≠ [] ∧ (∃ r ∈ rows, r.fn ≠ none) ∧ (∃ r ∈ rows, r.fp ≠ none)) := by
  unfold create_plots
  split
  · next hcond =>
    refine ⟨rfl, ?_⟩
    simp only [Bool.false_eq_true, false_iff]
    rintro ⟨h1, ⟨r2, hr2, hr2n⟩, ⟨r3, hr3, hr3n⟩⟩
    simp only [Bool.or_eq_true, List.isEmpty_iff, List.all_eq_true,
      Option.isNone_iff_eq_none] at hcond
    rcases hcond with (h | h) | h
    · exact h1 h
    · exact hr2n (h r2 hr2)
    · exact hr3n (h r3 hr3)
  · next hcond =>
    refine ⟨rfl, ?_⟩
    simp only [Bool.or_eq_true, List.isEmpty_iff, List.all_eq_true,
      Option.isNone_iff_eq_none] at hcond
    push_neg at hcond
    obtain ⟨⟨hne, hfn⟩, hfp⟩ := hcond
    simp only [true_iff]
    exact ⟨hne, hfn, hfp⟩

/-- C6: on three reports for one (model, method) with FN 0.1, 0.2, N/A and
FP 0.3, 0.5, N/A, the summary means are 0.15 and 0.4 — the missing value is
skipped; and any group whose FN values are all missing gets a missing mean,
never zero. -/
theorem C6_mean_skips_missing :
    ((summarizerMain c6FS).summary.map fun s =>
        (s.model, s.method, s.fnMean, s.fpMean)) =
      [("1000M1", "FastTree (GTR)", some ((3:ℚ)/20), some ((2:ℚ)/5))] ∧
    ∀ rows k, (∀ r ∈ rows, (r.model, r.method) = k → r.fn = none) →
      meanSkipNA (groupFN rows k) = none := by
  constructor
  · have h : ((summarizerMain c6FS).summary.map fun s =>
        (s.model, s.method, s.fnMean, s.fpMean)) =
      [("1000M1", "FastTree (GTR)",
        some (((((0:ℕ):ℚ) + ((1:ℕ):ℚ)/((10:ℚ)^(1:ℕ))) +
          ((((0:ℕ):ℚ) + ((2:ℕ):ℚ)/((10:ℚ)^(1:ℕ))) + 0)) / ((2:ℕ):ℚ)),
        some (((((0:ℕ):ℚ) + ((3:ℕ):ℚ)/((10:ℚ)^(1:ℕ))) +
          ((((0:ℕ):ℚ) + ((5:ℕ):ℚ)/((10:ℚ)^(1:ℕ))) + 0)) / ((2:ℕ):ℚ)))] := rfl
    rw [h]
    norm_num
  · intro rows k hall
    have hnil : (groupFN rows k).filterMap id = [] := by
      rw [List.filterMap_eq_nil_iff]
      intro v hv
      simp only [groupFN, List.mem_map, List.mem_filter,
        decide_eq_true_eq] at hv
      obtain ⟨r, ⟨hr, hrk⟩, rfl⟩ := hv
      exact hall r hr hrk
    simp [meanSkipNA, hnil]

/-- C7: with at least 3 genuinely common taxa both argument orders take the
metrics branch, and the RF distance — the size of the symmetric difference
of the two split sets — is the same either way. -/
theorem C7_rf_distance_symmetric (A B : PTree)
    (h : 3 ≤ (A.leaves ∩ B.leaves).card) :
    reportedRF (comparatorRun B A) = reportedRF (comparatorRun A B) := by
  have hBA : 3 ≤ (common_taxa B A).card := by
    rw [common_taxa_eq_union]
    exact le_trans h (Finset.card_le_card
      (le_trans Finset.inter_subset_left Finset.subset_union_right))
  have hAB : 3 ≤ (common_taxa A B).card := by
    rw [common_taxa_eq_union]
    exact le_trans h (Finset.card_le_card
      (le_trans Finset.inter_subset_left Finset.subset_union_left))
  rw [comparatorRun_metrics B A hBA, comparatorRun_metrics A B hAB]
  simp only [reportedRF, Option.some.injEq, symmetric_difference]
  omega

/-- C7 witness: the symmetry theorem applied to two concrete trees sharing
exactly the 3 taxa A, B, C. -/
theorem C7_witness :
    reportedRF (comparatorRun oneSplitTree otherSplitTree) =
      reportedRF (comparatorRun otherSplitTree oneSplitTree) :=
  C7_rf_distance_symmetric otherSplitTree oneSplitTree (by decide)

/-- C8: a results directory with no model directories, or whose replicate
directories hold no comparison files, produces a header-only raw CSV, an
empty summary and no plot files. -/
theorem C8_empty_results_outputs (fs : ResultsFS)
    (h : ∀ m ∈ fs, ∀ rp ∈ m.2, rp.2 = ([] : List (String × List String))) :
    (summarizerMain fs).rawLines = [rawHeader] ∧
    (summarizerMain fs).summary = [] ∧
    (summarizerMain fs).plots = { fnChart := false, fpChart := false } := by
  have hrows := buildRows_nil fs h
  unfold summarizerMain
  rw [hrows]
  exact ⟨rfl, rfl, rfl⟩

/-- C8 witness: the theorem applied to the empty results directory. -/
theorem C8_witness :
    (summarizerMain []).rawLines = [rawHeader] ∧
    (summarizerMain []).summary = [] ∧
    (summarizerMain []).plots = { fnChart := false, fpChart := false } :=
  C8_empty_results_outputs [] (by simp)

/-- C9: every FN and FP value a successful (metrics-bearing) run reports
lies in [0, 1]: the numerator counts a subset of the denominator set, and
the empty-set fallback divides 0 by 1. -/
theorem C9_rates_in_unit_interval (t e : PTree) :
    (∀ q, reportedFN (comparatorRun t e) = some q → 0 ≤ q ∧ q ≤ 1) ∧
    (∀ q, reportedFP (comparatorRun t e) = some q → 0 ≤ q ∧ q ≤ 1) := by
  by_cases h3 : (common_taxa t e).card < 3
  · rw [comparatorRun_invalid t e h3]
    simp [reportedFN, reportedFP]
  · rw [comparatorRun_metrics t e (by omega)]
    simp only [reportedFN, reportedFP, Option.some.injEq]
    constructor
    · rintro q rfl
      exact fnRate_mem_unit _ _
    · rintro q rfl
      exact fnRate_mem_unit _ _

/-- C10: a report file holding only an error line still contributes exactly
one raw-table row for its (model, method, replicate), with RF, FN and FP all
missing. -/
theorem C10_error_report_still_contributes_row :
    buildRows c10FS =
      [{ model := "1000M1", method := "NJ (JC)", replicate := "R1",
         rf := none, fn := none, fp := none }] := by
  decide

end PhyloComp
